import Mathlib

/-!
# SwiftScout goal publisher: a shallow embedding of `scout.cpp`

The node `GoalPublisherNode` of `src/swift_scout/src/scout.cpp` sends a fixed
list of waypoints to a navigation action server, one at a time, and moves to the
next waypoint when the result callback reports success.

Modelling decisions.

* Coordinates are C++ `double`s.  The code never does arithmetic on them: it
  stores decimal literals, copies them into the goal message, and compares them
  with the literals `1.75` and `1.0` (both exactly representable in binary64).
  They are modelled as rationals carrying the value of the decimal literal;
  on the finite values this keeps `==` against `1.75` and `1.0` unchanged.
* `current_goal_index_` is a `size_t`: a natural number below `2 ^ 64`, and
  `current_goal_index_++` wraps modulo `2 ^ 64`.
* Logging, `async_send_goal` and `rclcpp::shutdown` are side effects: every
  operation returns the list of effects it performed, in program order.
* `goals_list_[i]` with `i` out of range is undefined behaviour: an operation
  that would perform such a read returns `none`.
-/

namespace SwiftScout

/-- The struct `GoalPosition` (scout.cpp, lines 8-11). -/
structure GoalPosition where
  x : ℚ
  y : ℚ
deriving DecidableEq

/-- The enum `RobotID` (scout.cpp, lines 40-44). -/
inductive RobotID where
  | TB1
  | TB2
  | UNKNOWN
deriving DecidableEq

/-- The fields of `nav2_msgs::action::NavigateToPose::Goal` that
`send_next_goal` assigns (scout.cpp, lines 73-78). -/
structure NavGoal where
  frame_id : String
  position_x : ℚ
  position_y : ℚ
  position_z : ℚ
  orientation_w : ℚ
deriving DecidableEq

/-- The `code` field of the `WrappedResult` handed to `result_callback`:
`rclcpp_action::ResultCode` is an `enum class` over `int8_t`, printed by the
code with `static_cast<int>`. -/
structure WrappedResult where
  code : Int
deriving DecidableEq

/-- The value `rclcpp_action::ResultCode::SUCCEEDED`
(`action_msgs::msg::GoalStatus::STATUS_SUCCEEDED`). -/
def SUCCEEDED : Int := 4

/-- The width of `size_t`: indices live below `2 ^ 64`. -/
def SIZE_MOD : Nat := 2 ^ 64

/-- The observable effects of the node, one constructor per call site. -/
inductive Event where
  /-- Line 26: "Action server not available for robot %s". -/
  | error_server_unavailable (ns : String)
  /-- Lines 28 and 107: `rclcpp::shutdown()`. -/
  | shutdown
  /-- Line 64: "Unknown robot namespace: %s". -/
  | error_unknown_namespace (ns : String)
  /-- Line 83: "[%s] Sending goal %zu: x = %.2f, y = %.2f". -/
  | info_sending (ns : String) (index : Nat) (x y : ℚ)
  /-- Line 88: `action_client_->async_send_goal(goal_msg, goal_options)`. -/
  | async_send_goal (goal : NavGoal)
  /-- Line 90: "[%s] All goals have been achieved!". -/
  | info_all_achieved (ns : String)
  /-- Line 98: "[%s] Goal %zu succeeded!". -/
  | info_succeeded (ns : String) (index : Nat)
  /-- Line 104: "[%s] Bowl plate found at coordinates: (%.2f, %.2f)". -/
  | info_bowl_found (ns : String) (x y : ℚ)
  /-- Line 106: "[%s] Stopping execution.". -/
  | info_stopping (ns : String)
  /-- Line 113: "[%s] Goal %zu failed with code %d.". -/
  | error_failed (ns : String) (index : Nat) (code : Int)
deriving DecidableEq

/-- The data members of `GoalPublisherNode` (scout.cpp, lines 121-124). -/
structure GoalPublisherNode where
  goals_list_ : List GoalPosition
  current_goal_index_ : Nat
  robot_namespace_ : String
  goal_in_progress_ : Bool
deriving DecidableEq

/-- The function `get_robot_id` (scout.cpp, lines 46-53): a lookup in a map
with the two keys "tb1" and "tb2". -/
def get_robot_id (robot_namespace : String) : RobotID :=
  if robot_namespace = "tb1" then RobotID.TB1
  else if robot_namespace = "tb2" then RobotID.TB2
  else RobotID.UNKNOWN

/-- The function `set_goals_for_robot` (scout.cpp, lines 55-67), with the
effects it performs. -/
def set_goals_for_robot (robot_namespace : String) : List GoalPosition × List Event :=
  match get_robot_id robot_namespace with
  | RobotID.TB1 =>
      ([⟨-0.5, -0.5⟩, ⟨-0.5, -2⟩, ⟨1.5, -2⟩, ⟨2, -0.4⟩, ⟨1.5, 0.5⟩,
        ⟨1.5, 2⟩, ⟨-0.5, 2⟩, ⟨-1.5, 0.4⟩], [])
  | RobotID.TB2 =>
      ([⟨-0.5, 0.4⟩, ⟨-0.5, 2⟩, ⟨1.75, 1⟩, ⟨1.5, -2⟩, ⟨-0.5, -2⟩,
        ⟨-0.5, -0.4⟩, ⟨-1.5, -0.4⟩], [])
  | RobotID.UNKNOWN =>
      ([], [Event.error_unknown_namespace robot_namespace])

/-- The goal message built by `send_next_goal` (scout.cpp, lines 73-78). -/
def goal_msg (g : GoalPosition) : NavGoal :=
  { frame_id := "map", position_x := g.x, position_y := g.y,
    position_z := 0.0, orientation_w := 1.0 }

/-- The method `send_next_goal` (scout.cpp, lines 69-92). -/
def send_next_goal (s : GoalPublisherNode) : GoalPublisherNode × List Event :=
  if h : s.current_goal_index_ < s.goals_list_.length ∧ s.goal_in_progress_ = false then
    let g := s.goals_list_.get ⟨s.current_goal_index_, h.1⟩
    ({ s with goal_in_progress_ := true },
     [Event.info_sending s.robot_namespace_ s.current_goal_index_ g.x g.y,
      Event.async_send_goal (goal_msg g)])
  else if s.current_goal_index_ ≥ s.goals_list_.length then
    (s, [Event.info_all_achieved s.robot_namespace_])
  else
    (s, [])

/-- The condition of the `if` at scout.cpp, lines 101-103, evaluated left to
right with the short circuit of `&&`: the list is read only when the
namespace is "tb2", and a read out of range gives `none`. -/
def stop_condition (s : GoalPublisherNode) : Option Bool :=
  if s.robot_namespace_ = "tb2" then
    match s.goals_list_.get? s.current_goal_index_ with
    | none => none
    | some g => some (decide (g.x = 1.75) && decide (g.y = 1.0))
  else
    some false

/-- The method `result_callback` (scout.cpp, lines 94-119). -/
def result_callback (s : GoalPublisherNode) (result : WrappedResult) :
    Option (GoalPublisherNode × List Event) :=
  let s1 := { s with goal_in_progress_ := false }
  if result.code = SUCCEEDED then
    match stop_condition s1 with
    | none => none
    | some true =>
        some (s1,
          [Event.info_succeeded s1.robot_namespace_ s1.current_goal_index_,
           Event.info_bowl_found s1.robot_namespace_ 2.0 1.25,
           Event.info_stopping s1.robot_namespace_,
           Event.shutdown])
    | some false =>
        let s2 := { s1 with current_goal_index_ := (s1.current_goal_index_ + 1) % SIZE_MOD }
        let r := send_next_goal s2
        some (r.1, Event.info_succeeded s1.robot_namespace_ s1.current_goal_index_ :: r.2)
  else
    let r := send_next_goal s1
    some (r.1,
      Event.error_failed s1.robot_namespace_ s1.current_goal_index_ result.code :: r.2)

/-- The constructor of `GoalPublisherNode` (scout.cpp, lines 15-37).
`server_ready` is the value returned by `wait_for_action_server`. -/
def construct (robot_namespace : String) (server_ready : Bool) :
    GoalPublisherNode × List Event :=
  let s0 : GoalPublisherNode :=
    { goals_list_ := [], current_goal_index_ := 0,
      robot_namespace_ := robot_namespace, goal_in_progress_ := false }
  if server_ready = false then
    (s0, [Event.error_server_unavailable robot_namespace, Event.shutdown])
  else
    let t := set_goals_for_robot robot_namespace
    let r := send_next_goal { s0 with goals_list_ := t.1 }
    (r.1, t.2 ++ r.2)

/-! ## The node in its environment -/

/-- The goals carried by the `async_send_goal` calls of an effect list, in
order. -/
def submissions : List Event → List NavGoal
  | [] => []
  | Event.async_send_goal g :: es => g :: submissions es
  | _ :: es => submissions es

/-- Whether an effect list contains `rclcpp::shutdown()`. -/
def shutdown_signalled (es : List Event) : Bool :=
  es.contains Event.shutdown

/-- The node together with the action server's view of it: `outstanding`
counts the goals sent with `async_send_goal` whose result callback has not
run yet, and `trace` is every effect performed so far. -/
structure System where
  node : GoalPublisherNode
  outstanding : Nat
  trace : List Event
deriving DecidableEq

/-- What can happen to a node: a call of `send_next_goal`, or the action
client running `result_callback` with a result. -/
inductive Action where
  | advance
  | deliver (result : WrappedResult)
deriving DecidableEq

/-- The system right after the constructor ran with the action server
available. -/
def boot (robot_namespace : String) : System :=
  let r := construct robot_namespace true
  { node := r.1, outstanding := (submissions r.2).length, trace := r.2 }

/-- One action.  A result is delivered only for a goal that has no result
yet (`outstanding > 0`); `none` is returned when that is not so, or when the
callback would read `goals_list_` out of range. -/
def step (σ : System) : Action → Option System
  | Action.advance =>
      let r := send_next_goal σ.node
      some { node := r.1,
             outstanding := σ.outstanding + (submissions r.2).length,
             trace := σ.trace ++ r.2 }
  | Action.deliver result =>
      if σ.outstanding = 0 then none
      else
        match result_callback σ.node result with
        | none => none
        | some r =>
            some { node := r.1,
                   outstanding := σ.outstanding - 1 + (submissions r.2).length,
                   trace := σ.trace ++ r.2 }

/-- A sequence of actions, left to right. -/
def run (σ : System) : List Action → Option System
  | [] => some σ
  | a :: as =>
      match step σ a with
      | none => none
      | some σ' => run σ' as

/-- The states the node can be in when started for `robot_namespace` with
the action server available. -/
def Reachable (robot_namespace : String) (σ : System) : Prop :=
  ∃ as : List Action, run (boot robot_namespace) as = some σ

/-- A node state that fits the machine types: the vector's size and the
index are `size_t` values. -/
def Representable (s : GoalPublisherNode) : Prop :=
  s.goals_list_.length < SIZE_MOD ∧ s.current_goal_index_ < SIZE_MOD

/-- The node waits for the result of a goal it sent for the waypoint at
`current_goal_index_`. -/
def AwaitingOutcome (s : GoalPublisherNode) : Prop :=
  s.goal_in_progress_ = true ∧ s.current_goal_index_ < s.goals_list_.length

instance (s : GoalPublisherNode) : Decidable (AwaitingOutcome s) :=
  inferInstanceAs (Decidable (_ ∧ _))

/-- The result with a given code. -/
def outcome (code : Int) : WrappedResult := { code := code }

/-- Runs `result_callback` once per result of the list, in order, and
collects the effects. -/
def deliver_all (s : GoalPublisherNode) :
    List WrappedResult → Option (GoalPublisherNode × List Event)
  | [] => some (s, [])
  | r :: rs =>
      match result_callback s r with
      | none => none
      | some p =>
          match deliver_all p.1 rs with
          | none => none
          | some q => some (q.1, p.2 ++ q.2)

/-- Calls `send_next_goal` `n` times in a row and collects the effects. -/
def advance_times (s : GoalPublisherNode) : Nat → GoalPublisherNode × List Event
  | 0 => (s, [])
  | n + 1 =>
      let p := send_next_goal s
      let q := advance_times p.1 n
      (q.1, p.2 ++ q.2)

/-- The node state in which `result_callback` calls `send_next_goal` after a
success that does not stop the run: flag cleared (line 95), index
incremented (line 111). -/
def next_state (s : GoalPublisherNode) : GoalPublisherNode :=
  { s with goal_in_progress_ := false
           current_goal_index_ := (s.current_goal_index_ + 1) % SIZE_MOD }

/-- The result `SUCCEEDED` delivered `k` times in a row. -/
def successes (k : Nat) : List Action :=
  List.replicate k (Action.deliver (outcome SUCCEEDED))

/-- The invariant of the node in its environment: the number of goals
without a result mirrors `goal_in_progress_`, a goal in progress is for a
waypoint of the list, and index and size fit the machine types. -/
def Inv (n : GoalPublisherNode) (o : Nat) : Prop :=
  o = (if n.goal_in_progress_ = true then 1 else 0) ∧
  (n.goal_in_progress_ = true → n.current_goal_index_ < n.goals_list_.length) ∧
  n.current_goal_index_ ≤ n.goals_list_.length ∧
  n.goals_list_.length < SIZE_MOD

/-- The indices logged by the "Sending goal" line (line 83), in order: the
line is written in the branch of `send_next_goal` that calls
`async_send_goal`, with `current_goal_index_` as the index of the goal being
sent, so the k-th entry is the waypoint index of the k-th goal sent. -/
def sent_indices : List Event → List Nat
  | [] => []
  | Event.info_sending _ i _ _ :: es => i :: sent_indices es
  | _ :: es => sent_indices es

/-- A mixed sequence of results: a failure (code 6), two SUCCEEDED, a
failure (code 5) and a third SUCCEEDED. -/
def mixed_results : List Action :=
  [outcome 6, outcome SUCCEEDED, outcome SUCCEEDED, outcome 5, outcome SUCCEEDED].map
    Action.deliver

/-- A failure (code 7) followed by two results SUCCEEDED. -/
def retry_then_two : List WrappedResult :=
  [outcome 7, outcome SUCCEEDED, outcome SUCCEEDED]

/-! ## Basic facts about the operations -/

theorem submissions_append (es fs : List Event) :
    submissions (es ++ fs) = submissions es ++ submissions fs := by
  induction es with
  | nil => rfl
  | cons e es ih => cases e <;> simp [submissions, ih]

theorem sent_indices_append (es fs : List Event) :
    sent_indices (es ++ fs) = sent_indices es ++ sent_indices fs := by
  induction es with
  | nil => rfl
  | cons e es ih => cases e <;> simp [sent_indices, ih]

theorem goal_msg_fields (g : GoalPosition) :
    goal_msg g =
      { frame_id := "map", position_x := g.x, position_y := g.y,
        position_z := 0, orientation_w := 1 } := by
  simp only [goal_msg, NavGoal.mk.injEq, true_and]
  norm_num

theorem send_next_goal_idle (s : GoalPublisherNode)
    (h1 : s.current_goal_index_ < s.goals_list_.length) (h2 : s.goal_in_progress_ = false) :
    send_next_goal s =
      ({ s with goal_in_progress_ := true },
       [Event.info_sending s.robot_namespace_ s.current_goal_index_
          (s.goals_list_.get ⟨s.current_goal_index_, h1⟩).x
          (s.goals_list_.get ⟨s.current_goal_index_, h1⟩).y,
        Event.async_send_goal (goal_msg (s.goals_list_.get ⟨s.current_goal_index_, h1⟩))]) := by
  simp [send_next_goal, h1, h2]

theorem send_next_goal_busy (s : GoalPublisherNode)
    (h1 : s.current_goal_index_ < s.goals_list_.length) (h2 : s.goal_in_progress_ = true) :
    send_next_goal s = (s, []) := by
  simp [send_next_goal, h1, h2]

theorem send_next_goal_done (s : GoalPublisherNode)
    (h1 : s.goals_list_.length ≤ s.current_goal_index_) :
    send_next_goal s = (s, [Event.info_all_achieved s.robot_namespace_]) := by
  have h : ¬ s.current_goal_index_ < s.goals_list_.length := by omega
  simp [send_next_goal, h, h1]

theorem send_next_goal_cases (s : GoalPublisherNode) :
    (∃ h1 : s.current_goal_index_ < s.goals_list_.length, s.goal_in_progress_ = false ∧
      send_next_goal s =
        ({ s with goal_in_progress_ := true },
         [Event.info_sending s.robot_namespace_ s.current_goal_index_
            (s.goals_list_.get ⟨s.current_goal_index_, h1⟩).x
            (s.goals_list_.get ⟨s.current_goal_index_, h1⟩).y,
          Event.async_send_goal (goal_msg (s.goals_list_.get ⟨s.current_goal_index_, h1⟩))])) ∨
    (s.current_goal_index_ < s.goals_list_.length ∧ s.goal_in_progress_ = true ∧
      send_next_goal s = (s, [])) ∨
    (s.goals_list_.length ≤ s.current_goal_index_ ∧
      send_next_goal s = (s, [Event.info_all_achieved s.robot_namespace_])) := by
  by_cases h1 : s.current_goal_index_ < s.goals_list_.length
  · cases h2 : s.goal_in_progress_
    · exact Or.inl ⟨h1, rfl, send_next_goal_idle s h1 h2⟩
    · exact Or.inr (Or.inl ⟨h1, rfl, send_next_goal_busy s h1 h2⟩)
  · exact Or.inr (Or.inr ⟨by omega, send_next_goal_done s (by omega)⟩)

theorem stop_condition_flag (s : GoalPublisherNode) (b : Bool) :
    stop_condition { s with goal_in_progress_ := b } = stop_condition s := rfl

theorem stop_condition_in_range (s : GoalPublisherNode)
    (h : s.current_goal_index_ < s.goals_list_.length) :
    ∃ b, stop_condition s = some b := by
  unfold stop_condition
  split_ifs with hn
  · rw [List.get?_eq_get h]
    exact ⟨_, rfl⟩
  · exact ⟨false, rfl⟩

theorem result_callback_failed (s : GoalPublisherNode) (r : WrappedResult)
    (h : r.code ≠ SUCCEEDED) :
    result_callback s r =
      some ((send_next_goal { s with goal_in_progress_ := false }).1,
        Event.error_failed s.robot_namespace_ s.current_goal_index_ r.code ::
          (send_next_goal { s with goal_in_progress_ := false }).2) := by
  simp [result_callback, h]

theorem result_callback_stop (s : GoalPublisherNode) (r : WrappedResult)
    (h : r.code = SUCCEEDED) (hs : stop_condition s = some true) :
    result_callback s r =
      some ({ s with goal_in_progress_ := false },
        [Event.info_succeeded s.robot_namespace_ s.current_goal_index_,
         Event.info_bowl_found s.robot_namespace_ 2.0 1.25,
         Event.info_stopping s.robot_namespace_,
         Event.shutdown]) := by
  simp [result_callback, h, stop_condition_flag, hs]

theorem result_callback_next (s : GoalPublisherNode) (r : WrappedResult)
    (h : r.code = SUCCEEDED) (hs : stop_condition s = some false) :
    result_callback s r =
      some ((send_next_goal (next_state s)).1,
        Event.info_succeeded s.robot_namespace_ s.current_goal_index_ ::
          (send_next_goal (next_state s)).2) := by
  simp [result_callback, h, stop_condition_flag, hs, next_state]

theorem result_callback_undefined (s : GoalPublisherNode) (r : WrappedResult)
    (h : r.code = SUCCEEDED) (hs : stop_condition s = none) :
    result_callback s r = none := by
  simp [result_callback, h, stop_condition_flag, hs]

/-! ## The invariant along runs -/

theorem inv_send (n : GoalPublisherNode) (o : Nat) (h : Inv n o) :
    Inv (send_next_goal n).1 (o + (submissions (send_next_goal n).2).length) := by
  obtain ⟨ho, hb, hle, hsz⟩ := h
  rcases send_next_goal_cases n with ⟨h1, h2, e⟩ | ⟨h1, h2, e⟩ | ⟨h1, e⟩
  · rw [e]
    refine ⟨?_, ?_, ?_, ?_⟩ <;> simp_all [submissions]
  · rw [e]
    refine ⟨?_, ?_, ?_, ?_⟩ <;> simp_all [submissions]
  · rw [e]
    refine ⟨?_, ?_, ?_, ?_⟩ <;> simp_all [submissions]

theorem inv_callback (n : GoalPublisherNode) (o : Nat) (r : WrappedResult)
    (p : GoalPublisherNode × List Event)
    (h : Inv n o) (ho : o ≠ 0) (hp : result_callback n r = some p) :
    Inv p.1 (o - 1 + (submissions p.2).length) := by
  obtain ⟨hout, hb, hle, hsz⟩ := h
  have hflag : n.goal_in_progress_ = true := by
    by_contra hc
    simp [hc] at hout
    exact ho hout
  have hlt := hb hflag
  have ho1 : o - 1 = 0 := by simp [hout, hflag]
  by_cases hc : r.code = SUCCEEDED
  · obtain ⟨b, hsb⟩ := stop_condition_in_range n hlt
    cases b
    · rw [result_callback_next n r hc hsb] at hp
      cases hp
      have hmod : (n.current_goal_index_ + 1) % SIZE_MOD = n.current_goal_index_ + 1 :=
        Nat.mod_eq_of_lt (by omega)
      have := inv_send (next_state n) 0
        ⟨by simp [next_state], by simp [next_state], by simp [next_state, hmod]; omega, hsz⟩
      simpa [submissions, ho1] using this
    · rw [result_callback_stop n r hc hsb] at hp
      cases hp
      exact ⟨by simp [submissions, ho1], by simp, hle, hsz⟩
  · rw [result_callback_failed n r hc] at hp
    cases hp
    have := inv_send { n with goal_in_progress_ := false } 0
      ⟨by simp, by simp, hle, hsz⟩
    simpa [submissions, ho1] using this

theorem inv_step (σ σ' : System) (a : Action)
    (h : Inv σ.node σ.outstanding) (hs : step σ a = some σ') :
    Inv σ'.node σ'.outstanding := by
  cases a with
  | advance =>
      simp only [step, Option.some.injEq] at hs
      subst hs
      exact inv_send σ.node σ.outstanding h
  | deliver r =>
      unfold step at hs
      split_ifs at hs with h0
      cases hp : result_callback σ.node r with
      | none => simp [hp] at hs
      | some p =>
          simp only [hp, Option.some.injEq] at hs
          subst hs
          exact inv_callback σ.node σ.outstanding r p h h0 hp

theorem inv_run (as : List Action) (σ σ' : System)
    (h : Inv σ.node σ.outstanding) (hr : run σ as = some σ') :
    Inv σ'.node σ'.outstanding := by
  induction as generalizing σ with
  | nil =>
      simp only [run, Option.some.injEq] at hr
      subst hr
      exact h
  | cons a as ih =>
      unfold run at hr
      cases hs : step σ a with
      | none => simp [hs] at hr
      | some σ1 =>
          simp only [hs] at hr
          exact ih σ1 (inv_step σ σ1 a h hs) hr

theorem table_length_lt (ns : String) :
    (set_goals_for_robot ns).1.length < SIZE_MOD := by
  unfold set_goals_for_robot
  cases get_robot_id ns <;> simp [SIZE_MOD]

theorem table_effects_no_submission (ns : String) :
    submissions (set_goals_for_robot ns).2 = [] := by
  unfold set_goals_for_robot
  cases get_robot_id ns <;> simp [submissions]

theorem inv_boot (ns : String) : Inv (boot ns).node (boot ns).outstanding := by
  have := inv_send ⟨(set_goals_for_robot ns).1, 0, ns, false⟩ 0
    ⟨by simp, by simp, by simp, table_length_lt ns⟩
  simpa [boot, construct, submissions_append, table_effects_no_submission] using this

theorem inv_reachable (ns : String) (σ : System) (h : Reachable ns σ) :
    Inv σ.node σ.outstanding := by
  obtain ⟨as, hr⟩ := h
  exact inv_run as (boot ns) σ (inv_boot ns) hr

/-! ## Index and retry facts -/

theorem send_next_goal_index (s : GoalPublisherNode) :
    (send_next_goal s).1.current_goal_index_ = s.current_goal_index_ := by
  rcases send_next_goal_cases s with ⟨h1, h2, e⟩ | ⟨h1, h2, e⟩ | ⟨h1, e⟩ <;> rw [e]

theorem send_next_goal_guard (s : GoalPublisherNode) (h : s.goal_in_progress_ = true) :
    (send_next_goal s).1 = s ∧ submissions (send_next_goal s).2 = [] := by
  rcases send_next_goal_cases s with ⟨h1, h2, e⟩ | ⟨h1, h2, e⟩ | ⟨h1, e⟩
  · rw [h] at h2
    cases h2
  · rw [e]
    exact ⟨rfl, rfl⟩
  · rw [e]
    exact ⟨rfl, rfl⟩

theorem next_state_index (s : GoalPublisherNode)
    (hlt : s.current_goal_index_ < s.goals_list_.length)
    (hsz : s.goals_list_.length < SIZE_MOD) :
    (next_state s).current_goal_index_ = s.current_goal_index_ + 1 := by
  show (s.current_goal_index_ + 1) % SIZE_MOD = s.current_goal_index_ + 1
  exact Nat.mod_eq_of_lt (by omega)

theorem result_callback_index (s : GoalPublisherNode) (r : WrappedResult)
    (hlt : s.current_goal_index_ < s.goals_list_.length)
    (hsz : s.goals_list_.length < SIZE_MOD) :
    ∃ p, result_callback s r = some p ∧
      (r.code = SUCCEEDED → stop_condition s = some false →
        p.1.current_goal_index_ = s.current_goal_index_ + 1) ∧
      (r.code = SUCCEEDED → stop_condition s = some true →
        p.1.current_goal_index_ = s.current_goal_index_) ∧
      (r.code ≠ SUCCEEDED → p.1.current_goal_index_ = s.current_goal_index_) ∧
      s.current_goal_index_ ≤ p.1.current_goal_index_ := by
  by_cases hc : r.code = SUCCEEDED
  · obtain ⟨b, hsb⟩ := stop_condition_in_range s hlt
    cases b
    · have hi : (send_next_goal (next_state s)).1.current_goal_index_ =
          s.current_goal_index_ + 1 := by
        rw [send_next_goal_index, next_state_index s hlt hsz]
      refine ⟨_, result_callback_next s r hc hsb, fun _ _ => hi, ?_, ?_, ?_⟩
      · intro _ h
        rw [hsb] at h
        cases h
      · intro h
        exact absurd hc h
      · show s.current_goal_index_ ≤ (send_next_goal (next_state s)).1.current_goal_index_
        omega
    · refine ⟨_, result_callback_stop s r hc hsb, ?_, fun _ _ => rfl, ?_, le_refl _⟩
      · intro _ h
        rw [hsb] at h
        cases h
      · intro h
        exact absurd hc h
  · have hi : (send_next_goal { s with goal_in_progress_ := false }).1.current_goal_index_ =
        s.current_goal_index_ := by
      rw [send_next_goal_index]
    refine ⟨_, result_callback_failed s r hc, ?_, ?_, fun _ => hi, ?_⟩
    · intro h
      exact absurd h hc
    · intro h
      exact absurd h hc
    · show s.current_goal_index_ ≤
        (send_next_goal { s with goal_in_progress_ := false }).1.current_goal_index_
      omega

theorem step_index_le (σ σ' : System) (a : Action)
    (h : Inv σ.node σ.outstanding) (hs : step σ a = some σ') :
    σ.node.current_goal_index_ ≤ σ'.node.current_goal_index_ := by
  cases a with
  | advance =>
      simp only [step, Option.some.injEq] at hs
      subst hs
      exact le_of_eq (send_next_goal_index σ.node).symm
  | deliver r =>
      unfold step at hs
      split_ifs at hs with h0
      obtain ⟨hout, hb, -, hsz⟩ := h
      have hflag : σ.node.goal_in_progress_ = true := by
        by_contra hc
        simp [hc] at hout
        exact h0 hout
      obtain ⟨p, hp, -, -, -, hle⟩ := result_callback_index σ.node r (hb hflag) hsz
      simp only [hp, Option.some.injEq] at hs
      subst hs
      exact hle

theorem run_index_le (as : List Action) (σ σ' : System)
    (h : Inv σ.node σ.outstanding) (hr : run σ as = some σ') :
    σ.node.current_goal_index_ ≤ σ'.node.current_goal_index_ := by
  induction as generalizing σ with
  | nil =>
      simp only [run, Option.some.injEq] at hr
      subst hr
      exact le_refl _
  | cons a as ih =>
      unfold run at hr
      cases hs : step σ a with
      | none => simp [hs] at hr
      | some σ1 =>
          simp only [hs] at hr
          exact le_trans (step_index_le σ σ1 a h hs) (ih σ1 (inv_step σ σ1 a h hs) hr)

theorem result_callback_retry (s : GoalPublisherNode) (c : Int)
    (hs : AwaitingOutcome s) (hc : c ≠ SUCCEEDED) :
    result_callback s (outcome c) =
      some (s,
        [Event.error_failed s.robot_namespace_ s.current_goal_index_ c,
         Event.info_sending s.robot_namespace_ s.current_goal_index_
           (s.goals_list_.get ⟨s.current_goal_index_, hs.2⟩).x
           (s.goals_list_.get ⟨s.current_goal_index_, hs.2⟩).y,
         Event.async_send_goal (goal_msg (s.goals_list_.get ⟨s.current_goal_index_, hs.2⟩))]) := by
  obtain ⟨hflag, hlt⟩ := hs
  have hc' : (outcome c).code ≠ SUCCEEDED := hc
  rw [result_callback_failed s (outcome c) hc',
    send_next_goal_idle { s with goal_in_progress_ := false } hlt rfl]
  obtain ⟨g, i, n, f⟩ := s
  simp only at hflag
  subst hflag
  simp [outcome]

/-! ## The claims -/

/-- C1: in every state reachable from construction (action server available)
by calls of send_next_goal and deliveries of results for goals that have no
result yet, at most one submitted goal has no result, and goal_in_progress_
is true exactly when there is one. -/
theorem C1_single_in_flight (ns : String) (σ : System) (h : Reachable ns σ) :
    σ.outstanding ≤ 1 ∧ (σ.node.goal_in_progress_ = true ↔ σ.outstanding = 1) := by
  obtain ⟨ho, -, -, -⟩ := inv_reachable ns σ h
  cases hf : σ.node.goal_in_progress_ <;> simp [hf] at ho <;> simp [ho]

/-- Witness of C1: the state right after construction for "tb1". -/
theorem C1_single_in_flight_witness :
    Reachable "tb1" (boot "tb1") ∧ (boot "tb1").outstanding ≤ 1 ∧
      ((boot "tb1").node.goal_in_progress_ = true ↔ (boot "tb1").outstanding = 1) :=
  ⟨⟨[], rfl⟩, C1_single_in_flight "tb1" (boot "tb1") ⟨[], rfl⟩⟩

/-- C2: the node constructed for "tb1" that receives SUCCEEDED for each goal
it sent, 8 times in a row, has sent exactly 8 goals, logged with the indices
0 to 7 in this order, the i-th with frame "map", the x and y of the i-th
waypoint of the tb1 table, z = 0 and w = 1 (the eight poses are listed); it
ends with index 8 and no goal in progress; the callback for the 8th result
sends nothing (it logs that all goals are achieved), a later send_next_goal
sends nothing either, and rclcpp::shutdown is never called. -/
theorem C2_tb1_full_completion :
    ∃ σ7 σ8 : System,
      run (boot "tb1") (successes 7) = some σ7 ∧
      run (boot "tb1") (successes 8) = some σ8 ∧
      σ7.node = ⟨(set_goals_for_robot "tb1").1, 7, "tb1", true⟩ ∧
      result_callback σ7.node (outcome SUCCEEDED) =
        some (σ8.node, [Event.info_succeeded "tb1" 7, Event.info_all_achieved "tb1"]) ∧
      σ8.node = ⟨(set_goals_for_robot "tb1").1, 8, "tb1", false⟩ ∧
      σ8.outstanding = 0 ∧
      submissions σ8.trace = (set_goals_for_robot "tb1").1.map goal_msg ∧
      (submissions σ8.trace).length = 8 ∧
      shutdown_signalled σ8.trace = false ∧
      send_next_goal σ8.node = (σ8.node, [Event.info_all_achieved "tb1"]) ∧
      sent_indices σ8.trace = [0, 1, 2, 3, 4, 5, 6, 7] ∧
      submissions σ8.trace =
        (set_goals_for_robot "tb1").1.map
          (fun t => { frame_id := "map", position_x := t.x, position_y := t.y,
                      position_z := 0, orientation_w := 1 }) ∧
      submissions σ8.trace =
        [⟨"map", -0.5, -0.5, 0, 1⟩, ⟨"map", -0.5, -2, 0, 1⟩, ⟨"map", 1.5, -2, 0, 1⟩,
         ⟨"map", 2, -0.4, 0, 1⟩, ⟨"map", 1.5, 0.5, 0, 1⟩, ⟨"map", 1.5, 2, 0, 1⟩,
         ⟨"map", -0.5, 2, 0, 1⟩, ⟨"map", -1.5, 0.4, 0, 1⟩] := by
  obtain ⟨σ7, h7⟩ : ∃ σ, run (boot "tb1") (successes 7) = some σ :=
    Option.isSome_iff_exists.mp (by decide!)
  obtain ⟨σ8, h8⟩ : ∃ σ, run (boot "tb1") (successes 8) = some σ :=
    Option.isSome_iff_exists.mp (by decide!)
  have f7 : (run (boot "tb1") (successes 7)).map (fun σ => σ.node) =
      some ⟨(set_goals_for_robot "tb1").1, 7, "tb1", true⟩ := by decide!
  have f8 : (run (boot "tb1") (successes 8)).map
      (fun σ => (σ.node, σ.outstanding, submissions σ.trace, shutdown_signalled σ.trace)) =
      some (⟨(set_goals_for_robot "tb1").1, 8, "tb1", false⟩, 0,
        (set_goals_for_robot "tb1").1.map goal_msg, false) := by decide!
  rw [h7] at f7
  rw [h8] at f8
  simp only [Option.map_some', Option.some.injEq, Prod.mk.injEq] at f7 f8
  obtain ⟨g1, g2, g3, g4⟩ := f8
  have f9 : (run (boot "tb1") (successes 8)).map (fun σ => sent_indices σ.trace) =
      some [0, 1, 2, 3, 4, 5, 6, 7] := by decide!
  rw [h8] at f9
  simp only [Option.map_some', Option.some.injEq] at f9
  refine ⟨σ7, σ8, h7, h8, f7, ?_, g1, g2, g3, ?_, g4, ?_, f9, ?_, ?_⟩
  · rw [f7, g1]
    decide!
  · rw [g3]
    decide!
  · rw [g1]
    decide!
  · rw [g3]
    decide!
  · rw [g3]
    decide!

/-- C3: the node constructed for "tb2" that received SUCCEEDED for the
waypoints 0 and 1 waits at index 2, whose waypoint is (1.75, 1.0); the
callback for SUCCEEDED there logs the location (2.0, 1.25), which is not the
waypoint, calls rclcpp::shutdown, leaves the index at 2 and sends no goal;
exactly 3 goals were sent in all, for the first three waypoints. -/
theorem C3_tb2_discovery :
    ∃ σ2 σ3 : System,
      run (boot "tb2") (successes 2) = some σ2 ∧
      σ2.node = ⟨(set_goals_for_robot "tb2").1, 2, "tb2", true⟩ ∧
      σ2.node.goals_list_.get? 2 = some ⟨1.75, 1.0⟩ ∧
      result_callback σ2.node (outcome SUCCEEDED) =
        some (⟨(set_goals_for_robot "tb2").1, 2, "tb2", false⟩,
          [Event.info_succeeded "tb2" 2, Event.info_bowl_found "tb2" 2.0 1.25,
           Event.info_stopping "tb2", Event.shutdown]) ∧
      ((2.0 : ℚ), (1.25 : ℚ)) ≠ (1.75, 1.0) ∧
      submissions [Event.info_succeeded "tb2" 2, Event.info_bowl_found "tb2" 2.0 1.25,
           Event.info_stopping "tb2", Event.shutdown] = [] ∧
      step σ2 (Action.deliver (outcome SUCCEEDED)) = some σ3 ∧
      run (boot "tb2") (successes 3) = some σ3 ∧
      σ3.node.current_goal_index_ = 2 ∧
      σ3.outstanding = 0 ∧
      shutdown_signalled σ3.trace = true ∧
      submissions σ3.trace = ((set_goals_for_robot "tb2").1.take 3).map goal_msg ∧
      (submissions σ3.trace).length = 3 := by
  obtain ⟨σ2, h2⟩ : ∃ σ, run (boot "tb2") (successes 2) = some σ :=
    Option.isSome_iff_exists.mp (by decide!)
  obtain ⟨σ3, h3⟩ : ∃ σ, run (boot "tb2") (successes 3) = some σ :=
    Option.isSome_iff_exists.mp (by decide!)
  have f2 : (run (boot "tb2") (successes 2)).map (fun σ => σ.node) =
      some ⟨(set_goals_for_robot "tb2").1, 2, "tb2", true⟩ := by decide!
  have f23 : (run (boot "tb2") (successes 2)).bind
      (fun σ => step σ (Action.deliver (outcome SUCCEEDED))) =
      run (boot "tb2") (successes 3) := by decide!
  have f3 : (run (boot "tb2") (successes 3)).map
      (fun σ => (σ.node.current_goal_index_, σ.outstanding, shutdown_signalled σ.trace,
        submissions σ.trace)) =
      some (2, 0, true, ((set_goals_for_robot "tb2").1.take 3).map goal_msg) := by decide!
  rw [h2] at f2
  rw [h2, h3] at f23
  rw [h3] at f3
  simp only [Option.map_some', Option.some.injEq, Prod.mk.injEq, Option.some_bind] at f2 f23 f3
  obtain ⟨g1, g2, g3, g4⟩ := f3
  refine ⟨σ2, σ3, h2, f2, ?_, ?_, by decide!, by decide!, f23, h3, g1, g2, g3, g4, ?_⟩
  · rw [f2]
    decide!
  · rw [f2]
    decide!
  · rw [g4]
    decide!

/-- C4 as stated fails: in the state left by the stop condition firing for
"tb2" (index 2, shutdown signalled), send_next_goal is not a no-op. -/
theorem C4_stopped_counterexample :
    ∃ σ3 : System,
      run (boot "tb2") (successes 3) = some σ3 ∧
      shutdown_signalled σ3.trace = true ∧
      σ3.node.current_goal_index_ = 2 ∧
      ¬ ((send_next_goal σ3.node).1 = σ3.node ∧
          submissions (send_next_goal σ3.node).2 = []) := by
  obtain ⟨σ3, h3⟩ : ∃ σ, run (boot "tb2") (successes 3) = some σ :=
    Option.isSome_iff_exists.mp (by decide!)
  have f3 : (run (boot "tb2") (successes 3)).map
      (fun σ => (shutdown_signalled σ.trace, σ.node.current_goal_index_,
        decide ((send_next_goal σ.node).1 = σ.node ∧
          submissions (send_next_goal σ.node).2 = []))) =
      some (true, 2, false) := by decide!
  rw [h3] at f3
  simp only [Option.map_some', Option.some.injEq, Prod.mk.injEq, decide_eq_false_iff_not] at f3
  exact ⟨σ3, h3, f3.1, f3.2.1, f3.2.2⟩

/-- C4, amended: when the stop condition fires for "tb2" at index 2, the
callback clears goal_in_progress_, logs, calls rclcpp::shutdown and returns
without calling send_next_goal: it sends no goal, leaves index 2 and leaves
no goal without a result, so no further result can be delivered.  The node
records no stopped state: send_next_goal called on the state left behind is
not a no-op, it sets goal_in_progress_ and sends the waypoint at index 2
again, with frame "map", x = 1.75, y = 1, z = 0 and w = 1. -/
theorem C4_stop_keeps_no_stopped_state :
    ∃ σ3 : System,
      run (boot "tb2") (successes 3) = some σ3 ∧
      σ3.node = ⟨(set_goals_for_robot "tb2").1, 2, "tb2", false⟩ ∧
      σ3.outstanding = 0 ∧
      shutdown_signalled σ3.trace = true ∧
      result_callback ⟨(set_goals_for_robot "tb2").1, 2, "tb2", true⟩ (outcome SUCCEEDED) =
        some (σ3.node,
          [Event.info_succeeded "tb2" 2, Event.info_bowl_found "tb2" 2.0 1.25,
           Event.info_stopping "tb2", Event.shutdown]) ∧
      submissions [Event.info_succeeded "tb2" 2, Event.info_bowl_found "tb2" 2.0 1.25,
           Event.info_stopping "tb2", Event.shutdown] = [] ∧
      (∀ r : WrappedResult, step σ3 (Action.deliver r) = none) ∧
      send_next_goal σ3.node =
        (⟨(set_goals_for_robot "tb2").1, 2, "tb2", true⟩,
         [Event.info_sending "tb2" 2 1.75 1,
          Event.async_send_goal (goal_msg ⟨1.75, 1⟩)]) ∧
      submissions (send_next_goal σ3.node).2 = [⟨"map", 1.75, 1, 0, 1⟩] ∧
      sent_indices (send_next_goal σ3.node).2 = [2] := by
  obtain ⟨σ3, h3⟩ : ∃ σ, run (boot "tb2") (successes 3) = some σ :=
    Option.isSome_iff_exists.mp (by decide!)
  have f3 : (run (boot "tb2") (successes 3)).map
      (fun σ => (σ.node, σ.outstanding, shutdown_signalled σ.trace)) =
      some (⟨(set_goals_for_robot "tb2").1, 2, "tb2", false⟩, 0, true) := by decide!
  rw [h3] at f3
  simp only [Option.map_some', Option.some.injEq, Prod.mk.injEq] at f3
  obtain ⟨g1, g2, g3⟩ := f3
  refine ⟨σ3, h3, g1, g2, g3, ?_, rfl, ?_, ?_, ?_, ?_⟩
  · rw [g1]
    decide!
  · intro r
    simp [step, g2]
  · rw [g1]
    decide!
  · rw [g1]
    decide!
  · rw [g1]
    decide!

/-- C5: in a state that waits for a result at index i below the list size,
delivering any list of failure codes one after another returns every time
to the same state (index i, goal_in_progress_ true) and sends one goal per
failure, each logged with index i and each with frame "map", the x and y of
the waypoint at index i, z = 0 and w = 1; the list may have any length n,
in particular n at least 1.  For "tb1" right after construction, the code 7
leaves index 0 and sends exactly one goal, for waypoint 0: frame "map",
x = -0.5, y = -0.5, z = 0, w = 1. -/
theorem C5_unbounded_retry (s : GoalPublisherNode) (codes : List Int)
    (hs : AwaitingOutcome s) (hf : ∀ c ∈ codes, c ≠ SUCCEEDED) :
    (∃ ev, deliver_all s (codes.map outcome) = some (s, ev) ∧
      submissions ev = List.replicate codes.length
        (goal_msg (s.goals_list_.get ⟨s.current_goal_index_, hs.2⟩)) ∧
      submissions ev = List.replicate codes.length
        { frame_id := "map",
          position_x := (s.goals_list_.get ⟨s.current_goal_index_, hs.2⟩).x,
          position_y := (s.goals_list_.get ⟨s.current_goal_index_, hs.2⟩).y,
          position_z := 0, orientation_w := 1 } ∧
      sent_indices ev = List.replicate codes.length s.current_goal_index_) ∧
    result_callback (construct "tb1" true).1 (outcome 7) =
      some (⟨(set_goals_for_robot "tb1").1, 0, "tb1", true⟩,
        [Event.error_failed "tb1" 0 7,
         Event.info_sending "tb1" 0 (-0.5) (-0.5),
         Event.async_send_goal (goal_msg ⟨-0.5, -0.5⟩)]) ∧
    (result_callback (construct "tb1" true).1 (outcome 7)).map
        (fun p => (p.1.current_goal_index_, sent_indices p.2, submissions p.2)) =
      some (0, [0], [⟨"map", -0.5, -0.5, 0, 1⟩]) := by
  refine ⟨?_, by decide!, by decide!⟩
  induction codes with
  | nil => exact ⟨[], rfl, rfl, rfl, rfl⟩
  | cons c cs ih =>
      obtain ⟨ev, he, hsub, -, hidx⟩ := ih (fun d hd => hf d (List.mem_cons_of_mem c hd))
      have hc : c ≠ SUCCEEDED := hf c (List.mem_cons_self c cs)
      have hsub' : submissions
          ([Event.error_failed s.robot_namespace_ s.current_goal_index_ c,
            Event.info_sending s.robot_namespace_ s.current_goal_index_
              (s.goals_list_.get ⟨s.current_goal_index_, hs.2⟩).x
              (s.goals_list_.get ⟨s.current_goal_index_, hs.2⟩).y,
            Event.async_send_goal
              (goal_msg (s.goals_list_.get ⟨s.current_goal_index_, hs.2⟩))] ++ ev) =
          List.replicate (c :: cs).length
            (goal_msg (s.goals_list_.get ⟨s.current_goal_index_, hs.2⟩)) := by
        rw [submissions_append, hsub]
        simp [submissions, List.replicate_succ]
      refine ⟨[Event.error_failed s.robot_namespace_ s.current_goal_index_ c,
         Event.info_sending s.robot_namespace_ s.current_goal_index_
           (s.goals_list_.get ⟨s.current_goal_index_, hs.2⟩).x
           (s.goals_list_.get ⟨s.current_goal_index_, hs.2⟩).y,
         Event.async_send_goal (goal_msg (s.goals_list_.get ⟨s.current_goal_index_, hs.2⟩))]
          ++ ev, ?_, hsub', ?_, ?_⟩
      · simp only [List.map_cons, deliver_all, result_callback_retry s c hs hc, he]
      · rw [hsub', goal_msg_fields]
      · rw [sent_indices_append, hidx]
        simp [sent_indices, List.replicate_succ]

/-- Witness of C5: "tb1" right after construction, with the failure codes
7, 6 and 5. -/
theorem C5_unbounded_retry_witness :
    AwaitingOutcome (construct "tb1" true).1 ∧
    (∃ ev, deliver_all (construct "tb1" true).1 ([7, 6, 5].map outcome) =
        some ((construct "tb1" true).1, ev) ∧
      (submissions ev).length = 3 ∧ sent_indices ev = [0, 0, 0]) :=
  ⟨by decide, by
    obtain ⟨ev, h1, h2, -, h4⟩ := (C5_unbounded_retry (construct "tb1" true).1 [7, 6, 5]
      (by decide) (by decide)).1
    exact ⟨ev, h1, by simp [h2], by simpa using h4⟩⟩

/-- C6: for a state that waits for a result (its list size a size_t value)
and any result, result_callback returns, with the index one higher when the
result is SUCCEEDED and the stop condition does not fire, and with the index
unchanged when the stop condition fires or the result is a failure;
send_next_goal never changes the index of any state; and along every run
from a reachable state the index never decreases. -/
theorem C6_cursor_monotone (s : GoalPublisherNode) (r : WrappedResult)
    (hs : AwaitingOutcome s) (hsz : s.goals_list_.length < SIZE_MOD) :
    (∃ p, result_callback s r = some p ∧
      (r.code = SUCCEEDED → stop_condition s = some false →
        p.1.current_goal_index_ = s.current_goal_index_ + 1) ∧
      (r.code = SUCCEEDED → stop_condition s = some true →
        p.1.current_goal_index_ = s.current_goal_index_) ∧
      (r.code ≠ SUCCEEDED → p.1.current_goal_index_ = s.current_goal_index_)) ∧
    (∀ t : GoalPublisherNode,
      (send_next_goal t).1.current_goal_index_ = t.current_goal_index_) ∧
    (∀ (ns : String) (σ σ' : System) (as : List Action),
      Reachable ns σ → run σ as = some σ' →
        σ.node.current_goal_index_ ≤ σ'.node.current_goal_index_) := by
  refine ⟨?_, send_next_goal_index, ?_⟩
  · obtain ⟨p, hp, h1, h2, h3, -⟩ := result_callback_index s r hs.2 hsz
    exact ⟨p, hp, h1, h2, h3⟩
  · intro ns σ σ' as hreach hrun
    exact run_index_le as σ σ' (inv_reachable ns σ hreach) hrun

/-- Witness of C6: "tb1" right after construction, with the result
SUCCEEDED. -/
theorem C6_cursor_monotone_witness :
    AwaitingOutcome (construct "tb1" true).1 ∧
    (construct "tb1" true).1.goals_list_.length < SIZE_MOD ∧
    (∃ p, result_callback (construct "tb1" true).1 (outcome SUCCEEDED) = some p ∧
      p.1.current_goal_index_ = (construct "tb1" true).1.current_goal_index_ + 1) :=
  ⟨by decide, by decide, by
    obtain ⟨p, hp, h1, -, -⟩ := (C6_cursor_monotone (construct "tb1" true).1
      (outcome SUCCEEDED) (by decide) (by decide)).1
    exact ⟨p, hp, h1 rfl (by decide)⟩⟩

/-- C7: in every state reachable from construction by send_next_goal calls
and result deliveries, one per goal sent, the index is at least 0 and at
most the size of the waypoint list. -/
theorem C7_cursor_bound (ns : String) (σ : System) (h : Reachable ns σ) :
    0 ≤ σ.node.current_goal_index_ ∧
      σ.node.current_goal_index_ ≤ σ.node.goals_list_.length :=
  ⟨Nat.zero_le _, (inv_reachable ns σ h).2.2.1⟩

/-- Witness of C7: the state of "tb1" after 8 results SUCCEEDED, where the
index equals the size of the list. -/
theorem C7_cursor_bound_witness :
    Reachable "tb1" ((run (boot "tb1") (successes 8)).getD (boot "tb1")) ∧
    ((run (boot "tb1") (successes 8)).getD (boot "tb1")).node.current_goal_index_ = 8 ∧
    0 ≤ ((run (boot "tb1") (successes 8)).getD (boot "tb1")).node.current_goal_index_ ∧
    ((run (boot "tb1") (successes 8)).getD (boot "tb1")).node.current_goal_index_ ≤
      ((run (boot "tb1") (successes 8)).getD (boot "tb1")).node.goals_list_.length :=
  ⟨⟨successes 8, by decide!⟩, by decide!,
    C7_cursor_bound "tb1" ((run (boot "tb1") (successes 8)).getD (boot "tb1"))
      ⟨successes 8, by decide!⟩⟩

/-- C8: in a state with goal_in_progress_ true, send_next_goal sends no goal
and returns the very state it was called in; calling it any number of times
is the same as not calling it. -/
theorem C8_guard_idempotent (s : GoalPublisherNode) (h : s.goal_in_progress_ = true) :
    (send_next_goal s).1 = s ∧ submissions (send_next_goal s).2 = [] ∧
    ∀ n : Nat, (advance_times s n).1 = s ∧ submissions (advance_times s n).2 = [] := by
  obtain ⟨h1, h2⟩ := send_next_goal_guard s h
  refine ⟨h1, h2, ?_⟩
  intro n
  induction n with
  | zero => exact ⟨rfl, rfl⟩
  | succ n ih =>
      simp only [advance_times, h1, submissions_append, h2, ih.1, ih.2, List.append_nil,
        and_self]

/-- Witness of C8: "tb1" right after construction, where a goal is in
progress. -/
theorem C8_guard_idempotent_witness :
    (construct "tb1" true).1.goal_in_progress_ = true ∧
    (send_next_goal (construct "tb1" true).1).1 = (construct "tb1" true).1 ∧
    submissions (send_next_goal (construct "tb1" true).1).2 = [] ∧
    (advance_times (construct "tb1" true).1 5).1 = (construct "tb1" true).1 :=
  ⟨by decide,
   (C8_guard_idempotent (construct "tb1" true).1 (by decide)).1,
   (C8_guard_idempotent (construct "tb1" true).1 (by decide)).2.1,
   ((C8_guard_idempotent (construct "tb1" true).1 (by decide)).2.2 5).1⟩

/-- C9: for every namespace other than "tb1" and "tb2", set_goals_for_robot
returns the empty list and logs the unknown namespace, and the node
constructed for it (action server available) logs at once that all goals
are achieved, sends no goal, and has index 0 and no goal in progress. -/
theorem C9_unknown_identity (ns : String) (h1 : ns ≠ "tb1") (h2 : ns ≠ "tb2") :
    set_goals_for_robot ns = ([], [Event.error_unknown_namespace ns]) ∧
    construct ns true =
      (⟨[], 0, ns, false⟩,
       [Event.error_unknown_namespace ns, Event.info_all_achieved ns]) ∧
    submissions (construct ns true).2 = [] ∧
    (boot ns).outstanding = 0 := by
  have ht : set_goals_for_robot ns = ([], [Event.error_unknown_namespace ns]) := by
    simp [set_goals_for_robot, get_robot_id, h1, h2]
  have hc : construct ns true =
      (⟨[], 0, ns, false⟩,
       [Event.error_unknown_namespace ns, Event.info_all_achieved ns]) := by
    simp [construct, ht, send_next_goal]
  refine ⟨ht, hc, ?_, ?_⟩
  · rw [hc]
    rfl
  · simp only [boot, hc]
    rfl

/-- Witness of C9: the namespace "tb3". -/
theorem C9_unknown_identity_witness :
    "tb3" ≠ "tb1" ∧ "tb3" ≠ "tb2" ∧
    construct "tb3" true =
      (⟨[], 0, "tb3", false⟩,
       [Event.error_unknown_namespace "tb3", Event.info_all_achieved "tb3"]) :=
  ⟨by decide, by decide, (C9_unknown_identity "tb3" (by decide) (by decide)).2.1⟩

/-- C10: set_goals_for_robot gives for "tb1" exactly 8 points, the first
(-0.5, -0.5) and the last (-1.5, 0.4), and for "tb2" exactly 7 points, the
first (-0.5, 0.4), with (1.75, 1.0) at index 2 and at no other index. -/
theorem C10_catalog_contents :
    (set_goals_for_robot "tb1").1.length = 8 ∧
    (set_goals_for_robot "tb1").1.head? = some ⟨-0.5, -0.5⟩ ∧
    (set_goals_for_robot "tb1").1.getLast? = some ⟨-1.5, 0.4⟩ ∧
    (set_goals_for_robot "tb2").1.length = 7 ∧
    (set_goals_for_robot "tb2").1.head? = some ⟨-0.5, 0.4⟩ ∧
    (set_goals_for_robot "tb2").1.get? 2 = some ⟨1.75, 1.0⟩ ∧
    (∀ i : Nat, (set_goals_for_robot "tb2").1.get? i = some ⟨1.75, 1.0⟩ → i = 2) ∧
    (set_goals_for_robot "tb1").2 = [] ∧ (set_goals_for_robot "tb2").2 = [] := by
  refine ⟨by decide, by decide!, by decide!, by decide, by decide!, by decide!, ?_,
    by decide, by decide⟩
  intro i hi
  by_contra hne
  have hlt : i < 7 := by
    by_contra hge
    have : (set_goals_for_robot "tb2").1.get? i = none :=
      List.get?_eq_none.mpr (by
        have : (set_goals_for_robot "tb2").1.length = 7 := by decide
        omega)
    rw [this] at hi
    cases hi
  have hall : ∀ j : Fin 7, j.val ≠ 2 →
      (set_goals_for_robot "tb2").1.get? j.val ≠ some ⟨1.75, 1.0⟩ := by decide!
  exact hall ⟨i, hlt⟩ hne hi

/-! ## Further facts for the behaviour claims -/

theorem run_append (σ : System) (as bs : List Action) :
    run σ (as ++ bs) = (run σ as).bind (fun τ => run τ bs) := by
  induction as generalizing σ with
  | nil => rfl
  | cons a as ih =>
      simp only [List.cons_append, run]
      cases step σ a with
      | none => rfl
      | some σ1 => exact ih σ1

theorem run_snoc (σ σ' : System) (as : List Action) (a : Action)
    (h : run σ (as ++ [a]) = some σ') :
    ∃ τ, run σ as = some τ ∧ step τ a = some σ' := by
  rw [run_append] at h
  cases hr : run σ as with
  | none => simp [hr] at h
  | some τ =>
      refine ⟨τ, rfl, ?_⟩
      simp only [hr, Option.some_bind, run] at h
      cases hs : step τ a with
      | none => simp [hs] at h
      | some τ' =>
          simp only [hs] at h
          exact h

theorem reachable_step (ns : String) (σ σ' : System) (a : Action)
    (h : Reachable ns σ) (hs : step σ a = some σ') : Reachable ns σ' := by
  obtain ⟨as, hr⟩ := h
  refine ⟨as ++ [a], ?_⟩
  rw [run_append, hr]
  simp [run, hs]

theorem reachable_induction (ns : String) (P : System → Prop) (h0 : P (boot ns))
    (hstep : ∀ (σ σ' : System) (a : Action),
      Reachable ns σ → P σ → step σ a = some σ' → P σ')
    (σ : System) (h : Reachable ns σ) : P σ := by
  obtain ⟨as, hr⟩ := h
  induction as using List.reverseRecOn generalizing σ with
  | nil =>
      simp only [run, Option.some.injEq] at hr
      subst hr
      exact h0
  | append_singleton as a ih =>
      obtain ⟨τ, hτ, hs⟩ := run_snoc (boot ns) σ as a hr
      exact hstep τ σ a ⟨as, hτ⟩ (ih τ hτ) hs

theorem step_deliver_some (σ σ' : System) (r : WrappedResult)
    (h : step σ (Action.deliver r) = some σ') :
    σ.outstanding ≠ 0 ∧ ∃ p, result_callback σ.node r = some p ∧
      σ' = ⟨p.1, σ.outstanding - 1 + (submissions p.2).length, σ.trace ++ p.2⟩ := by
  unfold step at h
  split_ifs at h with h0
  cases hp : result_callback σ.node r with
  | none => simp [hp] at h
  | some p =>
      simp only [hp, Option.some.injEq] at h
      exact ⟨h0, p, rfl, h.symm⟩

theorem step_advance_some (σ σ' : System) (h : step σ Action.advance = some σ') :
    σ' = ⟨(send_next_goal σ.node).1,
      σ.outstanding + (submissions (send_next_goal σ.node).2).length,
      σ.trace ++ (send_next_goal σ.node).2⟩ := by
  simp only [step, Option.some.injEq] at h
  exact h.symm

theorem send_next_goal_effect (s : GoalPublisherNode) :
    (send_next_goal s).1.current_goal_index_ = s.current_goal_index_ ∧
    (send_next_goal s).1.goals_list_ = s.goals_list_ ∧
    (send_next_goal s).1.robot_namespace_ = s.robot_namespace_ ∧
    shutdown_signalled (send_next_goal s).2 = false ∧
    ((s.goal_in_progress_ = false ∧ (send_next_goal s).1.goal_in_progress_ = true ∧
        ∃ h : s.current_goal_index_ < s.goals_list_.length,
          sent_indices (send_next_goal s).2 = [s.current_goal_index_] ∧
          submissions (send_next_goal s).2 =
            [goal_msg (s.goals_list_.get ⟨s.current_goal_index_, h⟩)]) ∨
      ((send_next_goal s).1.goal_in_progress_ = s.goal_in_progress_ ∧
        (s.goal_in_progress_ = true ∨ s.goals_list_.length ≤ s.current_goal_index_) ∧
        sent_indices (send_next_goal s).2 = [] ∧
        submissions (send_next_goal s).2 = [])) := by
  rcases send_next_goal_cases s with ⟨h1, h2, e⟩ | ⟨h1, h2, e⟩ | ⟨h1, e⟩
  · rw [e]
    exact ⟨rfl, rfl, rfl, by simp [shutdown_signalled],
      Or.inl ⟨h2, rfl, h1, rfl, rfl⟩⟩
  · rw [e]
    exact ⟨rfl, rfl, rfl, by simp [shutdown_signalled],
      Or.inr ⟨rfl, Or.inl h2, rfl, rfl⟩⟩
  · rw [e]
    exact ⟨rfl, rfl, rfl, by simp [shutdown_signalled],
      Or.inr ⟨rfl, Or.inr h1, rfl, rfl⟩⟩

theorem result_callback_effect (n : GoalPublisherNode) (r : WrappedResult)
    (hlt : n.current_goal_index_ < n.goals_list_.length)
    (hsz : n.goals_list_.length < SIZE_MOD) :
    ∃ p, result_callback n r = some p ∧
      p.1.goals_list_ = n.goals_list_ ∧
      p.1.robot_namespace_ = n.robot_namespace_ ∧
      ((p.1.goal_in_progress_ = true ∧
          (r.code = SUCCEEDED → stop_condition n = some false) ∧
          p.1.current_goal_index_ =
            (if r.code = SUCCEEDED then n.current_goal_index_ + 1
             else n.current_goal_index_) ∧
          ∃ h : p.1.current_goal_index_ < n.goals_list_.length,
            sent_indices p.2 = [p.1.current_goal_index_] ∧
            submissions p.2 =
              [goal_msg (n.goals_list_.get ⟨p.1.current_goal_index_, h⟩)]) ∨
        (p.1.goal_in_progress_ = false ∧ r.code = SUCCEEDED ∧
          sent_indices p.2 = [] ∧ submissions p.2 = [] ∧
          ((stop_condition n = some true ∧
              p.1.current_goal_index_ = n.current_goal_index_) ∨
            (stop_condition n = some false ∧
              p.1.current_goal_index_ = n.current_goal_index_ + 1 ∧
              n.goals_list_.length ≤ n.current_goal_index_ + 1)))) := by
  by_cases hc : r.code = SUCCEEDED
  · obtain ⟨b, hsb⟩ := stop_condition_in_range n hlt
    cases b
    · have hi := next_state_index n hlt hsz
      obtain ⟨e1, e2, e3, -, e5⟩ := send_next_goal_effect (next_state n)
      refine ⟨_, result_callback_next n r hc hsb, e2, e3, ?_⟩
      rcases e5 with ⟨-, f2, f3, f4, f5⟩ | ⟨f1, f2, f3, f4⟩
      · refine Or.inl ⟨f2, fun _ => hsb, ?_, ?_⟩
        · simp only [hc, if_true]
          rw [e1, hi]
        · have f3' : (send_next_goal (next_state n)).1.current_goal_index_ <
              n.goals_list_.length := by
            rw [e1]
            exact f3
          refine ⟨f3', ?_, ?_⟩
          · simp only [sent_indices, f4, e1]
          · simp only [submissions, f5, e1]
            rfl
      · refine Or.inr ⟨?_, hc, ?_, ?_, Or.inr ⟨hsb, ?_, ?_⟩⟩
        · rw [f1]
          rfl
        · simp only [sent_indices, f3]
        · simp only [submissions, f4]
        · rw [e1, hi]
        · rcases f2 with f2 | f2
          · cases f2
          · rw [hi] at f2
            exact f2
    · refine ⟨_, result_callback_stop n r hc hsb, rfl, rfl,
        Or.inr ⟨rfl, hc, rfl, rfl, Or.inl ⟨hsb, rfl⟩⟩⟩
  · obtain ⟨e1, e2, e3, -, e5⟩ :=
      send_next_goal_effect { n with goal_in_progress_ := false }
    refine ⟨_, result_callback_failed n r hc, e2, e3, ?_⟩
    rcases e5 with ⟨-, f2, f3, f4, f5⟩ | ⟨-, f2, -, -⟩
    · refine Or.inl ⟨f2, fun h => absurd h hc, ?_, ?_⟩
      · simp only [hc, if_false]
        exact e1
      · have f3' : (send_next_goal { n with goal_in_progress_ := false }).1.current_goal_index_
            < n.goals_list_.length := by
          rw [e1]
          exact f3
        refine ⟨f3', ?_, ?_⟩
        · simp only [sent_indices, f4, e1]
        · simp only [submissions, f5, e1]
    · rcases f2 with f2 | f2
      · cases f2
      · exact absurd hlt (Nat.not_lt.mpr f2)

/-! ## The stop condition -/

theorem stop_condition_iff (s : GoalPublisherNode) :
    stop_condition s = some true ↔
      s.robot_namespace_ = "tb2" ∧
        s.goals_list_.get? s.current_goal_index_ = some ⟨1.75, 1.0⟩ := by
  unfold stop_condition
  split_ifs with hn
  · cases hg : s.goals_list_.get? s.current_goal_index_ with
    | none => simp [hn]
    | some g =>
        obtain ⟨gx, gy⟩ := g
        simp [hn]
  · simp [hn]

theorem stop_condition_other (s : GoalPublisherNode) (h : s.robot_namespace_ ≠ "tb2") :
    stop_condition s = some false := by
  simp [stop_condition, h]

theorem tb2_target_index (i : Nat) :
    (set_goals_for_robot "tb2").1.get? i = some ⟨1.75, 1.0⟩ ↔ i = 2 := by
  constructor
  · intro hi
    by_contra hne
    have hlt : i < 7 := by
      by_contra hge
      have hnone : (set_goals_for_robot "tb2").1.get? i = none :=
        List.get?_eq_none.mpr (by
          have : (set_goals_for_robot "tb2").1.length = 7 := by decide
          omega)
      rw [hnone] at hi
      cases hi
    have hall : ∀ j : Fin 7, j.val ≠ 2 →
        (set_goals_for_robot "tb2").1.get? j.val ≠ some ⟨1.75, 1.0⟩ := by decide!
    exact hall ⟨i, hlt⟩ hne hi
  · intro hi
    subst hi
    decide!

/-! ## The run for "tb2" -/

theorem tb2_no_stop_below (n : GoalPublisherNode)
    (hn : n.robot_namespace_ = "tb2")
    (hg : n.goals_list_ = (set_goals_for_robot "tb2").1)
    (hi : n.current_goal_index_ ≤ 2)
    (hs : stop_condition n = some false) :
    n.current_goal_index_ + 1 ≤ 2 := by
  have hne : n.current_goal_index_ ≠ 2 := by
    intro h2
    have : stop_condition n = some true := by
      rw [stop_condition_iff, hg, tb2_target_index]
      exact ⟨hn, h2⟩
    rw [this] at hs
    cases hs
  omega

theorem tb2_invariant (σ : System) (h : Reachable "tb2" σ) :
    σ.node.robot_namespace_ = "tb2" ∧
    σ.node.goals_list_ = (set_goals_for_robot "tb2").1 ∧
    σ.node.current_goal_index_ ≤ 2 ∧
    (∀ i ∈ sent_indices σ.trace, i ≤ 2) ∧
    (∀ g ∈ submissions σ.trace, ∃ i t, i ≤ 2 ∧
      (set_goals_for_robot "tb2").1.get? i = some t ∧ g = goal_msg t) := by
  refine reachable_induction "tb2" (fun σ =>
    σ.node.robot_namespace_ = "tb2" ∧
    σ.node.goals_list_ = (set_goals_for_robot "tb2").1 ∧
    σ.node.current_goal_index_ ≤ 2 ∧
    (∀ i ∈ sent_indices σ.trace, i ≤ 2) ∧
    (∀ g ∈ submissions σ.trace, ∃ i t, i ≤ 2 ∧
      (set_goals_for_robot "tb2").1.get? i = some t ∧ g = goal_msg t)) ?_ ?_ σ h
  · refine ⟨by decide, by decide!, by decide, by decide!, ?_⟩
    have hsub : submissions (boot "tb2").trace = [goal_msg ⟨-0.5, 0.4⟩] := by decide!
    intro g hg
    rw [hsub, List.mem_singleton] at hg
    exact ⟨0, ⟨-0.5, 0.4⟩, by decide, by decide!, hg⟩
  · intro τ τ' a hreach ih hs
    obtain ⟨hn, hg, hi, hI, hG⟩ := ih
    cases a with
    | advance =>
        have e := step_advance_some τ τ' hs
        obtain ⟨e1, e2, e3, -, e5⟩ := send_next_goal_effect τ.node
        subst e
        refine ⟨by rw [e3]; exact hn, by rw [e2]; exact hg, by rw [e1]; exact hi, ?_, ?_⟩
        · intro i hmem
          rw [sent_indices_append, List.mem_append] at hmem
          rcases hmem with hmem | hmem
          · exact hI i hmem
          · rcases e5 with ⟨-, -, f3, f4, -⟩ | ⟨-, -, f3, -⟩
            · rw [f4, List.mem_singleton] at hmem
              rw [hmem]
              exact hi
            · rw [f3] at hmem
              cases hmem
        · intro g hmem
          rw [submissions_append, List.mem_append] at hmem
          rcases hmem with hmem | hmem
          · exact hG g hmem
          · rcases e5 with ⟨-, -, f3, -, f5⟩ | ⟨-, -, -, f4⟩
            · rw [f5, List.mem_singleton] at hmem
              refine ⟨τ.node.current_goal_index_, _, hi, ?_, hmem⟩
              rw [← hg]
              exact List.get?_eq_get f3
            · rw [f4] at hmem
              cases hmem
    | deliver r =>
        obtain ⟨h0, p, hp, e⟩ := step_deliver_some τ τ' r hs
        obtain ⟨hout, hb, -, hsz⟩ := inv_reachable "tb2" τ hreach
        have hflag : τ.node.goal_in_progress_ = true := by
          by_contra hc
          simp [hc] at hout
          exact h0 hout
        have hlt := hb hflag
        obtain ⟨p', hp', e2, e3, e5⟩ := result_callback_effect τ.node r hlt hsz
        rw [hp] at hp'
        cases hp'
        subst e
        have hidx : p.1.current_goal_index_ ≤ 2 := by
          rcases e5 with ⟨-, f2, f3, -⟩ | ⟨-, -, -, -, f5⟩
          · by_cases hc : r.code = SUCCEEDED
            · rw [f3, if_pos hc]
              exact tb2_no_stop_below τ.node hn hg hi (f2 hc)
            · rw [f3, if_neg hc]
              exact hi
          · rcases f5 with ⟨-, f6⟩ | ⟨f6, f7, -⟩
            · rw [f6]
              exact hi
            · rw [f7]
              exact tb2_no_stop_below τ.node hn hg hi f6
        refine ⟨by rw [e3]; exact hn, by rw [e2]; exact hg, hidx, ?_, ?_⟩
        · intro i hmem
          rw [sent_indices_append, List.mem_append] at hmem
          rcases hmem with hmem | hmem
          · exact hI i hmem
          · rcases e5 with ⟨-, -, -, -, f4, -⟩ | ⟨-, -, f3, -, -⟩
            · rw [f4, List.mem_singleton] at hmem
              rw [hmem]
              exact hidx
            · rw [f3] at hmem
              cases hmem
        · intro g hmem
          rw [submissions_append, List.mem_append] at hmem
          rcases hmem with hmem | hmem
          · exact hG g hmem
          · rcases e5 with ⟨-, -, -, f3, -, f5⟩ | ⟨-, -, -, f4, -⟩
            · rw [f5, List.mem_singleton] at hmem
              refine ⟨p.1.current_goal_index_, _, hidx, ?_, hmem⟩
              rw [← hg]
              exact List.get?_eq_get f3
            · rw [f4] at hmem
              cases hmem

/-! ## The order of the goals sent -/

theorem table_effects_no_sending (ns : String) :
    sent_indices (set_goals_for_robot ns).2 = [] := by
  unfold set_goals_for_robot
  cases get_robot_id ns <;> simp [sent_indices]

theorem boot_effect (ns : String) :
    (boot ns).node.goals_list_ = (set_goals_for_robot ns).1 ∧
    (boot ns).node.current_goal_index_ = 0 ∧
    ((∃ h : 0 < (set_goals_for_robot ns).1.length,
        sent_indices (boot ns).trace = [0] ∧
        submissions (boot ns).trace = [goal_msg ((set_goals_for_robot ns).1.get ⟨0, h⟩)] ∧
        (boot ns).outstanding = 1) ∨
      ((set_goals_for_robot ns).1 = [] ∧
        sent_indices (boot ns).trace = [] ∧
        submissions (boot ns).trace = [] ∧
        (boot ns).outstanding = 0)) := by
  obtain ⟨e1, e2, -, -, e5⟩ := send_next_goal_effect ⟨(set_goals_for_robot ns).1, 0, ns, false⟩
  have ht : (boot ns).trace = (set_goals_for_robot ns).2 ++
      (send_next_goal ⟨(set_goals_for_robot ns).1, 0, ns, false⟩).2 := by
    simp [boot, construct]
  have hn : (boot ns).node = (send_next_goal ⟨(set_goals_for_robot ns).1, 0, ns, false⟩).1 := by
    simp [boot, construct]
  have ho : (boot ns).outstanding = (submissions (boot ns).trace).length := by
    simp [boot, construct]
  rw [ho, ht, hn, sent_indices_append, submissions_append, table_effects_no_sending,
    table_effects_no_submission]
  refine ⟨e2, e1, ?_⟩
  rcases e5 with ⟨-, -, f3, f4, f5⟩ | ⟨-, f2, f3, f4⟩
  · refine Or.inl ⟨f3, ?_, ?_, ?_⟩
    · simpa using f4
    · simpa using f5
    · simp [f5]
  · refine Or.inr ⟨?_, ?_, ?_, ?_⟩
    · rcases f2 with f2 | f2
      · cases f2
      · exact List.length_eq_zero.mp (Nat.le_zero.mp f2)
    · simpa using f3
    · simpa using f4
    · simp [f4]

theorem dispatch_invariant (ns : String) (rs : List WrappedResult) (σ : System)
    (h : run (boot ns) (rs.map Action.deliver) = some σ) :
    σ.node.goals_list_ = (set_goals_for_robot ns).1 ∧
    (sent_indices σ.trace).length = rs.length + σ.outstanding ∧
    (submissions σ.trace).length = (sent_indices σ.trace).length ∧
    (σ.outstanding ≠ 0 →
      (sent_indices σ.trace)[rs.length]? = some σ.node.current_goal_index_) ∧
    ((set_goals_for_robot ns).1 ≠ [] → (sent_indices σ.trace)[0]? = some 0) ∧
    (∀ (k i j : Nat) (r : WrappedResult),
      (sent_indices σ.trace)[k]? = some i → (sent_indices σ.trace)[k + 1]? = some j →
      rs[k]? = some r → j = if r.code = SUCCEEDED then i + 1 else i) ∧
    (∀ (k i : Nat) (g : NavGoal),
      (sent_indices σ.trace)[k]? = some i → (submissions σ.trace)[k]? = some g →
      ∃ t, (set_goals_for_robot ns).1[i]? = some t ∧ g = goal_msg t) := by
  induction rs using List.reverseRecOn generalizing σ with
  | nil =>
      simp only [List.map_nil, run, Option.some.injEq] at h
      subst h
      obtain ⟨hg, hi, hb⟩ := boot_effect ns
      rcases hb with ⟨hpos, hI, hG, ho⟩ | ⟨hemp, hI, hG, ho⟩
      · rw [hI, hG, ho, hi]
        refine ⟨hg, rfl, rfl, fun _ => rfl, fun _ => rfl, ?_, ?_⟩
        · intro k i j r _ hj _
          simp at hj
        · intro k i g hk hgk
          cases k with
          | zero =>
              simp only [List.getElem?_cons_zero, Option.some.injEq] at hk hgk
              subst hk
              exact ⟨_, List.getElem?_eq_getElem hpos, hgk.symm⟩
          | succ k => simp at hk
      · rw [hI, hG, ho]
        refine ⟨hg, rfl, rfl, fun hne => absurd rfl hne, fun hne => absurd hemp hne, ?_, ?_⟩
        · intro k i j r hk
          simp at hk
        · intro k i g hk
          simp at hk
  | append_singleton rs r ih =>
      rw [List.map_append, List.map_singleton] at h
      obtain ⟨τ, hτ, hs⟩ := run_snoc (boot ns) σ (rs.map Action.deliver) (Action.deliver r) h
      obtain ⟨hg, hlen, hsub, hlast, hhead, hchain, hpose⟩ := ih τ hτ
      obtain ⟨h0, p, hp, e⟩ := step_deliver_some τ σ r hs
      obtain ⟨hout, hb, -, hsz⟩ := inv_reachable ns τ ⟨_, hτ⟩
      have hflag : τ.node.goal_in_progress_ = true := by
        by_contra hc
        simp [hc] at hout
        exact h0 hout
      have hlt := hb hflag
      have ho1 : τ.outstanding = 1 := by simp [hout, hflag]
      obtain ⟨p', hp', e2, -, e5⟩ := result_callback_effect τ.node r hlt hsz
      rw [hp] at hp'
      cases hp'
      subst e
      have hlen1 : (sent_indices τ.trace).length = rs.length + 1 := by
        rw [hlen, ho1]
      have hlast1 := hlast h0
      simp only [sent_indices_append, submissions_append, List.length_append,
        List.length_singleton]
      rcases e5 with ⟨-, -, f3, f4, f5, f6⟩ | ⟨-, -, f3, f4, -⟩
      · rw [f5, f6, ho1]
        simp only [List.length_singleton]
        refine ⟨by rw [e2]; exact hg, by omega, by omega, ?_, ?_, ?_, ?_⟩
        · intro _
          rw [← hlen1]
          exact List.getElem?_concat_length _ _
        · intro hne
          rw [List.getElem?_append_left (by omega)]
          exact hhead hne
        · intro k i j r' hk hj hr
          by_cases hk1 : k + 1 < (sent_indices τ.trace).length
          · rw [List.getElem?_append_left (by omega)] at hk
            rw [List.getElem?_append_left hk1] at hj
            rw [List.getElem?_append_left (by omega)] at hr
            exact hchain k i j r' hk hj hr
          · by_cases hk2 : k + 1 = (sent_indices τ.trace).length
            · have hkr : k = rs.length := by omega
              subst hkr
              rw [List.getElem?_append_left (by omega), hlast1, Option.some.injEq] at hk
              rw [hk2, List.getElem?_concat_length, Option.some.injEq] at hj
              rw [List.getElem?_concat_length, Option.some.injEq] at hr
              rw [← hj, ← hk, ← hr]
              exact f3
            · rw [List.getElem?_eq_none (by simp; omega)] at hj
              cases hj
        · intro k i g hk hgk
          by_cases hk1 : k < (sent_indices τ.trace).length
          · rw [List.getElem?_append_left hk1] at hk
            rw [List.getElem?_append_left (by omega)] at hgk
            exact hpose k i g hk hgk
          · by_cases hk2 : k = (sent_indices τ.trace).length
            · subst hk2
              rw [List.getElem?_concat_length, Option.some.injEq] at hk
              rw [← hsub, List.getElem?_concat_length, Option.some.injEq] at hgk
              subst hk
              refine ⟨_, ?_, hgk.symm⟩
              rw [← hg]
              exact List.getElem?_eq_getElem f4
            · rw [List.getElem?_eq_none (by simp; omega)] at hk
              cases hk
      · rw [f3, f4, ho1]
        simp only [List.append_nil, List.length_nil]
        refine ⟨by rw [e2]; exact hg, by omega, by omega, fun hne => absurd rfl hne, hhead,
          ?_, hpose⟩
        intro k i j r' hk hj hr
        have hk1 : k + 1 < (sent_indices τ.trace).length := by
          by_contra hc
          rw [List.getElem?_eq_none (by omega)] at hj
          cases hj
        rw [List.getElem?_append_left (by omega)] at hr
        exact hchain k i j r' hk hj hr

/-! ## The behaviour claims -/

/-- C11 as stated fails: right after construction for "tb1" a goal is in
progress; send_next_goal called there leaves goal_in_progress_ true, before
and after the call, and sends no goal. -/
theorem C11_guard_counterexample :
    Reachable "tb1" (boot "tb1") ∧
    (boot "tb1").node.goal_in_progress_ = true ∧
    (send_next_goal (boot "tb1").node).1.goal_in_progress_ = true ∧
    submissions (send_next_goal (boot "tb1").node).2 = [] :=
  ⟨⟨[], rfl⟩, by decide, by decide, by decide!⟩

/-- C11, amended: for every state, reachable or not, and a single
send_next_goal call, goal_in_progress_ is false before and true after the
call exactly when the call sent a goal, and then it sent exactly one; a call
made while goal_in_progress_ is true leaves it true and sends nothing. -/
theorem C11_flag_rises_only_with_submission (s : GoalPublisherNode) :
    ((s.goal_in_progress_ = false ∧ (send_next_goal s).1.goal_in_progress_ = true) ↔
      submissions (send_next_goal s).2 ≠ []) ∧
    (submissions (send_next_goal s).2).length ≤ 1 ∧
    (s.goal_in_progress_ = true →
      (send_next_goal s).1.goal_in_progress_ = true ∧
      submissions (send_next_goal s).2 = []) := by
  obtain ⟨-, -, -, -, e⟩ := send_next_goal_effect s
  rcases e with ⟨f1, f2, f3, -, f5⟩ | ⟨f1, -, -, f4⟩
  · refine ⟨⟨fun _ => by simp [f5], fun _ => ⟨f1, f2⟩⟩, by simp [f5], ?_⟩
    intro ht
    rw [f1] at ht
    cases ht
  · refine ⟨⟨?_, fun hne => absurd f4 hne⟩, by simp [f4], fun ht => ⟨?_, f4⟩⟩
    · rintro ⟨g1, g2⟩
      rw [f1, g1] at g2
      cases g2
    · rw [f1]
      exact ht

/-- Witness of C11, amended: "tb1" right after construction, where a goal
is in progress. -/
theorem C11_flag_rises_only_with_submission_witness :
    (boot "tb1").node.goal_in_progress_ = true ∧
    (send_next_goal (boot "tb1").node).1.goal_in_progress_ = true ∧
    submissions (send_next_goal (boot "tb1").node).2 = [] :=
  ⟨by decide, (C11_flag_rises_only_with_submission (boot "tb1").node).2.2 (by decide)⟩

/-- C12: when the action server is not available within the wait, the
constructor logs the error, calls rclcpp::shutdown and returns: for every
namespace no goal is sent, set_goals_for_robot is not called (the list stays
empty), the index is 0 and no goal is in progress. -/
theorem C12_readiness_failure (ns : String) :
    construct ns false =
      (⟨[], 0, ns, false⟩, [Event.error_server_unavailable ns, Event.shutdown]) ∧
    submissions (construct ns false).2 = [] ∧
    shutdown_signalled (construct ns false).2 = true ∧
    (construct ns false).1.goals_list_ = [] ∧
    (construct ns false).1.current_goal_index_ = 0 ∧
    (construct ns false).1.goal_in_progress_ = false := by
  refine ⟨rfl, rfl, ?_, rfl, rfl, rfl⟩
  simp [construct, shutdown_signalled]

/-- C13: in a state with the index below the list size and no goal in
progress, send_next_goal sends exactly one goal, with frame "map",
x and y of the waypoint at the index, z = 0 and orientation w = 1, sets
goal_in_progress_, and leaves list, index and namespace unchanged. -/
theorem C13_submission_postcondition (s : GoalPublisherNode)
    (h1 : s.current_goal_index_ < s.goals_list_.length)
    (h2 : s.goal_in_progress_ = false) :
    submissions (send_next_goal s).2 =
      [{ frame_id := "map",
         position_x := (s.goals_list_.get ⟨s.current_goal_index_, h1⟩).x,
         position_y := (s.goals_list_.get ⟨s.current_goal_index_, h1⟩).y,
         position_z := 0, orientation_w := 1 }] ∧
    (send_next_goal s).1.goal_in_progress_ = true ∧
    (send_next_goal s).1.goals_list_ = s.goals_list_ ∧
    (send_next_goal s).1.current_goal_index_ = s.current_goal_index_ ∧
    (send_next_goal s).1.robot_namespace_ = s.robot_namespace_ := by
  rw [send_next_goal_idle s h1 h2]
  refine ⟨?_, rfl, rfl, rfl, rfl⟩
  simp only [submissions, goal_msg, List.cons.injEq, and_true, NavGoal.mk.injEq, true_and]
  norm_num

/-- Witness of C13: "tb2" with index 2 and no goal in progress. -/
theorem C13_submission_postcondition_witness :
    submissions (send_next_goal ⟨(set_goals_for_robot "tb2").1, 2, "tb2", false⟩).2 =
      [{ frame_id := "map",
         position_x := ((set_goals_for_robot "tb2").1.get ⟨2, by decide⟩).x,
         position_y := ((set_goals_for_robot "tb2").1.get ⟨2, by decide⟩).y,
         position_z := 0, orientation_w := 1 }] :=
  (C13_submission_postcondition ⟨(set_goals_for_robot "tb2").1, 2, "tb2", false⟩
    (by decide) rfl).1

/-- C14: for a state that waits for a result, result_callback with
SUCCEEDED stops (logs the find, calls rclcpp::shutdown, keeps the index,
does not call send_next_goal) exactly when the namespace is "tb2" and the
waypoint at the index is (1.75, 1.0); in every other case it increments the
index by 1 and then calls send_next_goal, without shutdown.  So the stop
never fires for a namespace other than "tb2", and with the tb2 table it
fires only at index 2. -/
theorem C14_stop_condition_exact (s : GoalPublisherNode)
    (hs : AwaitingOutcome s) (hsz : s.goals_list_.length < SIZE_MOD) :
    (stop_condition s = some true ↔
      s.robot_namespace_ = "tb2" ∧
        s.goals_list_.get ⟨s.current_goal_index_, hs.2⟩ = ⟨1.75, 1.0⟩) ∧
    (stop_condition s = some true →
      result_callback s (outcome SUCCEEDED) =
        some ({ s with goal_in_progress_ := false },
          [Event.info_succeeded s.robot_namespace_ s.current_goal_index_,
           Event.info_bowl_found s.robot_namespace_ 2.0 1.25,
           Event.info_stopping s.robot_namespace_,
           Event.shutdown])) ∧
    (¬ (s.robot_namespace_ = "tb2" ∧
        s.goals_list_.get ⟨s.current_goal_index_, hs.2⟩ = ⟨1.75, 1.0⟩) →
      result_callback s (outcome SUCCEEDED) =
        some ((send_next_goal (next_state s)).1,
          Event.info_succeeded s.robot_namespace_ s.current_goal_index_ ::
            (send_next_goal (next_state s)).2) ∧
      (next_state s).current_goal_index_ = s.current_goal_index_ + 1 ∧
      (send_next_goal (next_state s)).1.current_goal_index_ = s.current_goal_index_ + 1 ∧
      shutdown_signalled (Event.info_succeeded s.robot_namespace_ s.current_goal_index_ ::
            (send_next_goal (next_state s)).2) = false) ∧
    (s.robot_namespace_ ≠ "tb2" → stop_condition s = some false) ∧
    (s.robot_namespace_ = "tb2" → s.goals_list_ = (set_goals_for_robot "tb2").1 →
      (stop_condition s = some true ↔ s.current_goal_index_ = 2)) := by
  have hiff : stop_condition s = some true ↔
      s.robot_namespace_ = "tb2" ∧
        s.goals_list_.get ⟨s.current_goal_index_, hs.2⟩ = ⟨1.75, 1.0⟩ := by
    rw [stop_condition_iff, List.get?_eq_get hs.2, Option.some.injEq]
  refine ⟨hiff, ?_, ?_, stop_condition_other s, ?_⟩
  · intro hst
    exact result_callback_stop s (outcome SUCCEEDED) rfl hst
  · intro hno
    obtain ⟨b, hb⟩ := stop_condition_in_range s hs.2
    have hfalse : stop_condition s = some false := by
      cases b
      · exact hb
      · exact absurd (hiff.mp hb) hno
    have hi := next_state_index s hs.2 hsz
    obtain ⟨e1, -, -, e4, -⟩ := send_next_goal_effect (next_state s)
    refine ⟨result_callback_next s (outcome SUCCEEDED) rfl hfalse, hi, by rw [e1, hi], ?_⟩
    simp only [shutdown_signalled, List.contains_cons] at e4 ⊢
    simpa using e4
  · intro hn hg
    rw [stop_condition_iff, hg, tb2_target_index]
    simp [hn]

/-- Witness of C14: "tb2" waiting at index 2, where the stop fires. -/
theorem C14_stop_condition_exact_witness :
    AwaitingOutcome ⟨(set_goals_for_robot "tb2").1, 2, "tb2", true⟩ ∧
    (⟨(set_goals_for_robot "tb2").1, 2, "tb2", true⟩ : GoalPublisherNode).goals_list_.length
      < SIZE_MOD ∧
    stop_condition ⟨(set_goals_for_robot "tb2").1, 2, "tb2", true⟩ = some true :=
  ⟨by decide, by decide,
    ((C14_stop_condition_exact ⟨(set_goals_for_robot "tb2").1, 2, "tb2", true⟩
      (by decide) (by decide)).2.2.2.2 rfl rfl).mpr rfl⟩

/-- C15: for every namespace and every sequence of results delivered one
per goal without a result, the goals sent and the indices logged for them
correspond one to one; the first index is 0 when the table is not empty;
each later goal is for the same index as the one before when the result
delivered for that one was a failure, and for the next index when it was
SUCCEEDED; and every goal sent has frame "map", the x and y of the table
entry at its index, z = 0 and w = 1. -/
theorem C15_in_order_dispatch (ns : String) (rs : List WrappedResult) (σ : System)
    (h : run (boot ns) (rs.map Action.deliver) = some σ) :
    (submissions σ.trace).length = (sent_indices σ.trace).length ∧
    (sent_indices σ.trace).length = rs.length + σ.outstanding ∧
    ((set_goals_for_robot ns).1 ≠ [] → (sent_indices σ.trace)[0]? = some 0) ∧
    (∀ (k i j : Nat) (r : WrappedResult),
      (sent_indices σ.trace)[k]? = some i → (sent_indices σ.trace)[k + 1]? = some j →
      rs[k]? = some r → j = if r.code = SUCCEEDED then i + 1 else i) ∧
    (∀ (k j : Nat), (sent_indices σ.trace)[k + 1]? = some j → ∃ r, rs[k]? = some r) ∧
    (∀ (k i : Nat) (g : NavGoal),
      (sent_indices σ.trace)[k]? = some i → (submissions σ.trace)[k]? = some g →
      ∃ t, (set_goals_for_robot ns).1[i]? = some t ∧ g = goal_msg t ∧
        g = { frame_id := "map", position_x := t.x, position_y := t.y,
              position_z := 0, orientation_w := 1 }) := by
  obtain ⟨-, hlen, hsub, -, hhead, hchain, hpose⟩ := dispatch_invariant ns rs σ h
  obtain ⟨hout, -, -, -⟩ := inv_reachable ns σ ⟨_, h⟩
  refine ⟨hsub, hlen, hhead, hchain, ?_, ?_⟩
  swap
  · intro k i g hk hg
    obtain ⟨t, ht, hgt⟩ := hpose k i g hk hg
    exact ⟨t, ht, hgt, by rw [hgt, goal_msg_fields]⟩
  intro k j hj
  have hk : k + 1 < (sent_indices σ.trace).length := by
    by_contra hc
    rw [List.getElem?_eq_none (by omega)] at hj
    cases hj
  have ho : σ.outstanding ≤ 1 := by
    rw [hout]
    split_ifs <;> omega
  have hk' : k < rs.length := by omega
  exact ⟨_, List.getElem?_eq_getElem hk'⟩

/-- Witness of C15: "tb1" with a failure and then two results SUCCEEDED:
the goals sent are for the indices 0, 0, 1, 2, with the poses of these
waypoints. -/
theorem C15_in_order_dispatch_witness :
    run (boot "tb1") (retry_then_two.map Action.deliver) =
      some ((run (boot "tb1") (retry_then_two.map Action.deliver)).getD (boot "tb1")) ∧
    sent_indices
      ((run (boot "tb1") (retry_then_two.map Action.deliver)).getD (boot "tb1")).trace =
      [0, 0, 1, 2] ∧
    (submissions
      ((run (boot "tb1") (retry_then_two.map Action.deliver)).getD (boot "tb1")).trace).length =
    (sent_indices
      ((run (boot "tb1") (retry_then_two.map Action.deliver)).getD (boot "tb1")).trace).length ∧
    submissions
      ((run (boot "tb1") (retry_then_two.map Action.deliver)).getD (boot "tb1")).trace =
      [⟨"map", -0.5, -0.5, 0, 1⟩, ⟨"map", -0.5, -0.5, 0, 1⟩, ⟨"map", -0.5, -2, 0, 1⟩,
       ⟨"map", 1.5, -2, 0, 1⟩] :=
  ⟨by decide!, by decide!,
    (C15_in_order_dispatch "tb1" retry_then_two
      ((run (boot "tb1") (retry_then_two.map Action.deliver)).getD (boot "tb1"))
      (by decide!)).1, by decide!⟩

/-- C16: in a state with the index at or past the list size, whatever
goal_in_progress_ is, send_next_goal sends no goal, logs that all goals are
achieved, and returns the state unchanged. -/
theorem C16_completed_absorbing (s : GoalPublisherNode)
    (h : s.goals_list_.length ≤ s.current_goal_index_) :
    send_next_goal s = (s, [Event.info_all_achieved s.robot_namespace_]) ∧
    submissions (send_next_goal s).2 = [] := by
  rw [send_next_goal_done s h]
  exact ⟨rfl, rfl⟩

/-- Witness of C16: "tb1" with index 8, once with and once without a goal
in progress. -/
theorem C16_completed_absorbing_witness :
    send_next_goal ⟨(set_goals_for_robot "tb1").1, 8, "tb1", false⟩ =
      (⟨(set_goals_for_robot "tb1").1, 8, "tb1", false⟩, [Event.info_all_achieved "tb1"]) ∧
    send_next_goal ⟨(set_goals_for_robot "tb1").1, 8, "tb1", true⟩ =
      (⟨(set_goals_for_robot "tb1").1, 8, "tb1", true⟩, [Event.info_all_achieved "tb1"]) :=
  ⟨(C16_completed_absorbing ⟨(set_goals_for_robot "tb1").1, 8, "tb1", false⟩ (by decide)).1,
   (C16_completed_absorbing ⟨(set_goals_for_robot "tb1").1, 8, "tb1", true⟩ (by decide)).1⟩

/-- C17: in every state reachable from construction by send_next_goal
calls and result deliveries made only for a goal without a result, a goal in
progress implies that the index is below the list size.  Hence the read of
goals_list_ in send_next_goal, made only when a goal is sent, is in range,
and so is the read in the stop-condition check of result_callback: the
callback is defined for every result delivered there. -/
theorem C17_indexing_safety (ns : String) (σ : System) (h : Reachable ns σ) :
    (σ.node.goal_in_progress_ = true →
      σ.node.current_goal_index_ < σ.node.goals_list_.length) ∧
    (submissions (send_next_goal σ.node).2 ≠ [] →
      σ.node.current_goal_index_ < σ.node.goals_list_.length) ∧
    (σ.outstanding ≠ 0 →
      (∃ g, σ.node.goals_list_.get? σ.node.current_goal_index_ = some g) ∧
      ∀ r : WrappedResult,
        (∃ p, result_callback σ.node r = some p) ∧
        (∃ σ', step σ (Action.deliver r) = some σ')) := by
  obtain ⟨hout, hb, -, hsz⟩ := inv_reachable ns σ h
  refine ⟨hb, ?_, ?_⟩
  · intro hne
    obtain ⟨-, -, -, -, e⟩ := send_next_goal_effect σ.node
    rcases e with ⟨-, -, f3, -, -⟩ | ⟨-, -, -, f4⟩
    · exact f3
    · exact absurd f4 hne
  · intro h0
    have hflag : σ.node.goal_in_progress_ = true := by
      by_contra hc
      simp [hc] at hout
      exact h0 hout
    have hlt := hb hflag
    refine ⟨⟨_, List.get?_eq_get hlt⟩, ?_⟩
    intro r
    obtain ⟨p, hp, -⟩ := result_callback_effect σ.node r hlt hsz
    refine ⟨⟨p, hp⟩, ?_⟩
    simp [step, h0, hp]

/-- Witness of C17: "tb2" after two results SUCCEEDED, waiting at
index 2. -/
theorem C17_indexing_safety_witness :
    Reachable "tb2" ((run (boot "tb2") (successes 2)).getD (boot "tb2")) ∧
    (((run (boot "tb2") (successes 2)).getD (boot "tb2")).node.goal_in_progress_ = true →
      ((run (boot "tb2") (successes 2)).getD (boot "tb2")).node.current_goal_index_ <
        ((run (boot "tb2") (successes 2)).getD (boot "tb2")).node.goals_list_.length) :=
  ⟨⟨successes 2, by decide!⟩,
    (C17_indexing_safety "tb2" ((run (boot "tb2") (successes 2)).getD (boot "tb2"))
      ⟨successes 2, by decide!⟩).1⟩

/-- C18: for "tb2", in every state reachable from construction by
send_next_goal calls and results (SUCCEEDED or failures in any mix) delivered
one per goal without a result, the index is at most 2; every goal sent is
for a waypoint at an index of at most 2, so the waypoints at indices 3 to 6
are never sent, and the index never equals the list size 7. -/
theorem C18_tb2_never_passes_discovery (σ : System) (h : Reachable "tb2" σ) :
    σ.node.current_goal_index_ ≤ 2 ∧
    (∀ i ∈ sent_indices σ.trace, i ≤ 2) ∧
    (∀ g ∈ submissions σ.trace, ∃ i t, i ≤ 2 ∧
      (set_goals_for_robot "tb2").1.get? i = some t ∧ g = goal_msg t) ∧
    σ.node.goals_list_.length = 7 ∧
    σ.node.current_goal_index_ ≠ σ.node.goals_list_.length := by
  obtain ⟨-, hg, hi, hI, hG⟩ := tb2_invariant σ h
  have hlen : σ.node.goals_list_.length = 7 := by
    rw [hg]
    decide
  refine ⟨hi, hI, hG, hlen, ?_⟩
  rw [hlen]
  omega

/-- Witness of C18: "tb2" after a failure, two results SUCCEEDED, a failure
and a third SUCCEEDED, where the stop has fired at index 2. -/
theorem C18_tb2_never_passes_discovery_witness :
    Reachable "tb2" ((run (boot "tb2") mixed_results).getD (boot "tb2")) ∧
    ((run (boot "tb2") mixed_results).getD (boot "tb2")).node.current_goal_index_ ≤ 2 :=
  ⟨⟨mixed_results, by decide!⟩,
    (C18_tb2_never_passes_discovery ((run (boot "tb2") mixed_results).getD (boot "tb2"))
      ⟨mixed_results, by decide!⟩).1⟩

/-- C19: result_callback checks neither goal_in_progress_ nor the index
bound.  The state of "tb1" after full completion has index 8, no goal in
progress and no goal without a result, so a further result is outside the
once-per-goal rule; result_callback run there with SUCCEEDED all the same
returns index 9, above the list size 8. -/
theorem C19_stale_result_breaks_bound :
    ∃ σ8 : System,
      run (boot "tb1") (successes 8) = some σ8 ∧
      σ8.node = ⟨(set_goals_for_robot "tb1").1, 8, "tb1", false⟩ ∧
      σ8.outstanding = 0 ∧
      step σ8 (Action.deliver (outcome SUCCEEDED)) = none ∧
      result_callback σ8.node (outcome SUCCEEDED) =
        some (⟨(set_goals_for_robot "tb1").1, 9, "tb1", false⟩,
          [Event.info_succeeded "tb1" 8, Event.info_all_achieved "tb1"]) ∧
      (set_goals_for_robot "tb1").1.length = 8 ∧
      ¬ (9 ≤ (set_goals_for_robot "tb1").1.length) := by
  obtain ⟨σ8, h8⟩ : ∃ σ, run (boot "tb1") (successes 8) = some σ :=
    Option.isSome_iff_exists.mp (by decide!)
  have f8 : (run (boot "tb1") (successes 8)).map
      (fun σ => (σ.node, σ.outstanding, step σ (Action.deliver (outcome SUCCEEDED)))) =
      some (⟨(set_goals_for_robot "tb1").1, 8, "tb1", false⟩, 0, none) := by decide!
  rw [h8] at f8
  simp only [Option.map_some', Option.some.injEq, Prod.mk.injEq] at f8
  obtain ⟨g1, g2, g3⟩ := f8
  refine ⟨σ8, h8, g1, g2, g3, ?_, by decide, by decide⟩
  rw [g1]
  decide!

end SwiftScout
